import Mathlib

/-!
Shallow embedding of the Agent Dojo frontend core: the recursive
parameter-schema renderer (SchemaDisplay / PropertyItem) and the OAuth
connection-status polling state machine of the Add Connection modal
(ToolDetailPanel.tsx), with theorems settling the specification claims.
-/

namespace AgentDojo

/-! ## Schema data model

Mirrors the TypeScript interface SchemaProperty.  A TS value
`type?: string | string[]` becomes `Option TypeField`; `undefined`
fields become `none`.  Records become association lists preserving
JS insertion order (Object.entries order).  Payload-only fields that
never influence control flow (description, default, examples, enum,
additionalProperties) are carried as opaque display payloads where they
matter to no claim; description is kept as representative.
-/

inductive TypeField : Type where
  | single (t : String)
  | multi (ts : List String)
  deriving DecidableEq, Repr

/-- `required?: string[] | boolean` on a property. -/
inductive ReqField : Type where
  | ofList (l : List String)
  | ofBool (b : Bool)
  deriving DecidableEq, Repr

inductive SchemaProperty : Type where
  | mk (type : Option TypeField)
       (description : Option String)
       (properties : Option (List (String × SchemaProperty)))
       (items : Option SchemaProperty)
       (required : Option ReqField)
  deriving Repr

@[simp] def SchemaProperty.type : SchemaProperty → Option TypeField
  | .mk t _ _ _ _ => t

@[simp] def SchemaProperty.description : SchemaProperty → Option String
  | .mk _ d _ _ _ => d

@[simp] def SchemaProperty.properties : SchemaProperty → Option (List (String × SchemaProperty))
  | .mk _ _ p _ _ => p

@[simp] def SchemaProperty.items : SchemaProperty → Option SchemaProperty
  | .mk _ _ _ i _ => i

@[simp] def SchemaProperty.required : SchemaProperty → Option ReqField
  | .mk _ _ _ _ r => r

/-- The top-level schema argument of SchemaDisplay:
`\x7b type?, properties?, required?: string[] \x7d | null | undefined`
(null and undefined both map to `none` at the call site). -/
structure TopSchema : Type where
  type : Option String
  properties : Option (List (String × SchemaProperty))
  required : Option (List String)

/-! ## Display-type computation (PropertyItem.displayType)

TS source:
  Array.isArray(property.type) ? property.type.join(' | ')
  : property.type === 'array' && property.items
      ? template "array<" (property.items.type || 'any') ">"
      : property.type || 'any'
A JS template interpolation of a string[] joins with ","; `x || 'any'`
falls back on the falsy values undefined and "" (an array, even empty,
is truthy).
-/

/-- JS stringification of `property.items.type || 'any'` inside the
template literal: `undefined` and the empty string are falsy and give
"any"; an array (always truthy) stringifies by joining with ",". -/
def itemsTypeStr (it : SchemaProperty) : String :=
  match it.type with
  | none => "any"
  | some (.single t) => if t = "" then "any" else t
  | some (.multi ts) => String.intercalate "," ts

def displayType (p : SchemaProperty) : String :=
  match p.type with
  | some (.multi ts) => String.intercalate " | " ts
  | some (.single t) =>
      if t = "array" then
        match p.items with
        | some it => "array<" ++ itemsTypeStr it ++ ">"
        | none => "array"
      else if t = "" then "any" else t
  | none => "any"

/-! ## Expandability (PropertyItem.hasNestedProperties)

TS source:
  (property.type === 'object' && property.properties) ||
  (property.type === 'array' && property.items?.properties)
Strict equality of a string[] `type` with 'object'/'array' is false, so
only the single-string form qualifies.  A present-but-empty properties
record is truthy in JS.
-/

def hasNestedProperties (p : SchemaProperty) : Bool :=
  (p.type = some (.single "object") && p.properties.isSome) ||
  (p.type = some (.single "array") && (p.items.bind SchemaProperty.properties).isSome)

/-- Guard of the nested-object block (lines 178-195): rendered only when
expanded, the type is object, and the properties record is nonempty. -/
def objectChildrenCond (p : SchemaProperty) : Bool :=
  p.type = some (.single "object") &&
    ((p.properties.getD []).length > 0 && p.properties.isSome)

/-- Guard of the nested-array block (lines 197-215): rendered only when
expanded, the type is array, and items.properties is nonempty. -/
def arrayChildrenCond (p : SchemaProperty) : Bool :=
  p.type = some (.single "array") &&
    (((p.items.bind SchemaProperty.properties).getD []).length > 0 &&
      (p.items.bind SchemaProperty.properties).isSome)

/-- The spec's recursion rule, written from its words: a property is
expandable iff (type is object and it has properties) or (type is array
and its items has properties) — "has properties" read as a nonempty
properties map. -/
def specExpandable (p : SchemaProperty) : Bool :=
  (p.type = some (.single "object") && (p.properties.getD []).length > 0) ||
  (p.type = some (.single "array") &&
    ((p.items.bind SchemaProperty.properties).getD []).length > 0)

/-! ## Rendered tree

One RenderNode per PropertyItem component instance.  React holds each
item's isExpanded in component state keyed by its position in the tree;
we model the state store as a map from property paths (the list of
property names from the root) to the stored Bool, `none` meaning the
component mounts fresh and takes its useState initial value
`level === 0`.  Children are present in the tree exactly when the
source renders the nested SchemaDisplay (so the tree encodes
visibility). -/

inductive RenderNode : Type where
  | node (name : String) (level : Nat) (expanded : Bool) (hasToggle : Bool)
         (displayType : String) (isRequired : Bool) (children : List RenderNode)
  deriving Repr

@[simp] def RenderNode.name : RenderNode → String
  | .node n _ _ _ _ _ _ => n

@[simp] def RenderNode.level : RenderNode → Nat
  | .node _ l _ _ _ _ _ => l

@[simp] def RenderNode.expanded : RenderNode → Bool
  | .node _ _ e _ _ _ _ => e

@[simp] def RenderNode.hasToggle : RenderNode → Bool
  | .node _ _ _ t _ _ _ => t

@[simp] def RenderNode.isRequired : RenderNode → Bool
  | .node _ _ _ _ _ r _ => r

@[simp] def RenderNode.children : RenderNode → List RenderNode
  | .node _ _ _ _ _ _ c => c

/-- Expansion-state store: stored isExpanded per property path. -/
def StateStore : Type := List String → Option Bool

/-- The empty store: every PropertyItem mounts fresh, so isExpanded is
its useState initial value `level === 0`. -/
def freshStore : StateStore := fun _ => none

/-- Store after the user toggles the item at `path` (onClick flips
isExpanded), starting from store `σ` where the item showed `cur`. -/
def toggleAt (σ : StateStore) (path : List String) (cur : Bool) : StateStore :=
  fun q => if q = path then some (!cur) else σ q

/-- isExpanded of the PropertyItem at `path` rendered with prop
`level`: the stored state, or the useState initializer
`level === 0` on fresh mount. -/
def expandedState (σ : StateStore) (path : List String) (level : Nat) : Bool :=
  (σ path).getD (level == 0)

/-- `Array.isArray(property.required) ? property.required : []` in the
nested SchemaDisplay calls. -/
def reqListOf : Option ReqField → List String
  | some (.ofList l) => l
  | _ => []

mutual

/-- PropertyItem: renders one property at `level`; when expanded and the
object/array nested-block guard holds, a nested SchemaDisplay over the
child properties is rendered at `level + 1`. -/
def renderProp (σ : StateStore) (path : List String) (name : String)
    (p : SchemaProperty) (isReq : Bool) (level : Nat) : RenderNode :=
  match p with
  | .mk ty d props items req =>
    let here := path ++ [name]
    let expanded := expandedState σ here level
    let objChildren : List RenderNode :=
      match props with
      | some l =>
        if expanded && ty = some (.single "object") && l.length > 0 then
          renderProps σ here l (reqListOf req) (level + 1)
        else []
      | none => []
    let arrChildren : List RenderNode :=
      match items with
      | some (.mk _ _ iprops _ ireq) =>
        match iprops with
        | some il =>
          if expanded && ty = some (.single "array") && il.length > 0 then
            renderProps σ here il (reqListOf ireq) (level + 1)
          else []
        | none => []
      | none => []
    RenderNode.node name level expanded
      (hasNestedProperties (.mk ty d props items req))
      (displayType (.mk ty d props items req)) isReq
      (objChildren ++ arrChildren)

/-- SchemaDisplay's Object.entries(properties).map over PropertyItem,
in insertion order, with isRequired = required.includes(name). -/
def renderProps (σ : StateStore) (path : List String)
    (props : List (String × SchemaProperty)) (required : List String)
    (level : Nat) : List RenderNode :=
  match props with
  | [] => []
  | (n, p) :: rest =>
      renderProp σ path n p (required.contains n) level ::
        renderProps σ path rest required level

end

/-- Result of the top-level SchemaDisplay component. -/
inductive RenderResult : Type where
  | noParams
  | items (nodes : List RenderNode)
  deriving Repr

/-- SchemaDisplay: `if (!schema || !schema.properties)` returns the
"No parameters defined" placeholder; otherwise maps the properties with
`required = schema.required || []`. -/
def SchemaDisplay (σ : StateStore) (schema : Option TopSchema)
    (level : Nat) : RenderResult :=
  match schema with
  | none => .noParams
  | some s =>
    match s.properties with
    | none => .noParams
    | some props => .items (renderProps σ [] props (s.required.getD []) level)

mutual

/-- All PropertyItem instances in a rendered subtree (the node and its
rendered descendants). -/
def allNodes : RenderNode → List RenderNode
  | .node n l e t d r c => .node n l e t d r c :: allNodesList c

def allNodesList : List RenderNode → List RenderNode
  | [] => []
  | n :: rest => allNodes n ++ allNodesList rest

end

/-- Names of the visible properties, with their path from the root:
a PropertyItem is visible iff it is rendered, and children are rendered
only under an expanded parent with a satisfied nested-block guard. -/
def visiblePaths (pre : List String) : List RenderNode → List (List String)
  | [] => []
  | .node n _ _ _ _ _ c :: rest =>
      (pre ++ [n]) :: (visiblePaths (pre ++ [n]) c ++ visiblePaths pre rest)

def renderedOf : RenderResult → List RenderNode
  | .noParams => []
  | .items ns => ns

/-! ## Add Connection modal: popup/poll controller

Embeds initiateMutation.onSuccess of AddConnectionModal
(ToolDetailPanel.tsx lines 609-658).  The two setInterval handles
become two Bool flags (true = interval not yet cleared); the popup
window reference is `Option Popup` (`none` when window.open returned
null); pendingConnection, the alert() calls, the onSuccess() callback
and console.error are recorded in the state.  Events are the interval
callbacks firing (a poll tick carrying the awaited status-check result
or a thrown error, and a liveness tick) plus the user closing the popup
window. -/

structure Popup : Type where
  closed : Bool
  deriving DecidableEq, Repr

structure PendingConnection : Type where
  connectionId : String
  appType : String
  deriving DecidableEq, Repr

structure ModalState : Type where
  /-- pollInterval handle still armed (not yet clearInterval-ed). -/
  pollIntervalActive : Bool
  /-- checkPopupClosed handle still armed. -/
  checkPopupClosedActive : Bool
  /-- The window.open result captured by both closures. -/
  popup : Option Popup
  /-- The pendingConnection React state. -/
  pendingConnection : Option PendingConnection
  /-- Messages surfaced through alert(), oldest first. -/
  alerts : List String
  /-- onSuccess() was invoked (refreshes the connection list). -/
  successNotified : Bool
  /-- Number of console.error logs from the poll catch block. -/
  loggedErrors : Nat
  deriving DecidableEq, Repr

/-- Result of one awaited checkConnectionStatus call: a response whose
status field is `s`, or a thrown (network) error. -/
inductive PollResult : Type where
  | ok (s : String)
  | err
  deriving DecidableEq, Repr

inductive Event : Type where
  /-- The 2-second pollInterval callback fires and its status check
  settles with `r`. -/
  | pollTick (r : PollResult)
  /-- The 1-second checkPopupClosed callback fires. -/
  | livenessTick
  /-- The user closes the popup window. -/
  | userClosesPopup
  deriving DecidableEq, Repr

/-- State right after a successful initiate: popup opened (or null),
pendingConnection set, both intervals started. -/
def initModal (popup : Option Popup) (pc : PendingConnection) : ModalState :=
  { pollIntervalActive := true
    checkPopupClosedActive := true
    popup := popup
    pendingConnection := some pc
    alerts := []
    successNotified := false
    loggedErrors := 0 }

/-- popup?.close(): marks the window closed when the reference is
non-null, otherwise a no-op. -/
def closePopup : Option Popup → Option Popup
  | some _ => some { closed := true }
  | none => none

/-- popup?.closed — undefined (falsy) when popup is null. -/
def popupClosed : Option Popup → Bool
  | some w => w.closed
  | none => false

/-- One step of the modal's event loop, transcribing the two interval
callbacks.  A cleared interval's callback no longer fires, so each tick
is guarded by its flag. -/
def step (s : ModalState) : Event → ModalState
  | .pollTick r =>
    if s.pollIntervalActive then
      match r with
      | .ok st =>
        if st = "ACTIVE" then
          { s with pollIntervalActive := false
                   popup := closePopup s.popup
                   pendingConnection := none
                   successNotified := true }
        else if st = "FAILED" then
          { s with pollIntervalActive := false
                   popup := closePopup s.popup
                   pendingConnection := none
                   alerts := s.alerts ++ ["Connection failed. Please try again."] }
        else s
      | .err => { s with loggedErrors := s.loggedErrors + 1 }
    else s
  | .livenessTick =>
    if s.checkPopupClosedActive then
      if popupClosed s.popup then
        { s with pollIntervalActive := false
                 checkPopupClosedActive := false
                 pendingConnection := none }
      else s
    else s
  | .userClosesPopup => { s with popup := closePopup s.popup }

/-- Run a trace of events from a state. -/
def run (s : ModalState) : List Event → ModalState
  | [] => s
  | e :: es => run (step s e) es

/-! ## UI trigger availability (AddConnectionModal JSX)

The disabled attribute of each trigger, as a function of the two
relevant pieces of state: `pending` = !!pendingConnection and
`isLoading` = initiateMutation.isLoading. -/

/-- Toolkit grid button (line 722):
`disabled=\x7b!!pendingConnection || initiateMutation.isLoading\x7d`. -/
def toolkitButtonDisabled (pending isLoading : Bool) : Bool :=
  pending || isLoading

/-- Modal close button (line 682): `disabled=\x7b!!pendingConnection\x7d`. -/
def closeButtonDisabled (pending _isLoading : Bool) : Bool :=
  pending

/-- Search input (line 696): `disabled=\x7b!!pendingConnection\x7d`. -/
def searchInputDisabled (pending _isLoading : Bool) : Bool :=
  pending

/-! ## Concrete instances used by the spec's worked examples -/

/-- The schema property with type "string" and nothing else. -/
def strProp : SchemaProperty := .mk (some (.single "string")) none none none none

/-- The schema property with type "number" and nothing else. -/
def numProp : SchemaProperty := .mk (some (.single "number")) none none none none

/-- The property b of the spec's worked example: an object with one
property c of type number. -/
def bProp : SchemaProperty :=
  .mk (some (.single "object")) none (some [("c", numProp)]) none none

/-- The spec's worked example schema: an object with a string property
a and an object property b whose single property is c. -/
def exSchema : TopSchema :=
  ⟨some "object", some [("a", strProp), ("b", bProp)], none⟩

/-- The spec's other worked example: an array whose items are plain
strings. -/
def arrayOfString : SchemaProperty :=
  .mk (some (.single "array")) none none (some strProp) none

/-- Store after the user toggles property b (shown expanded on the
fresh mount at level 0). -/
def toggledB : StateStore := toggleAt freshStore ["b"] true

/-- A concrete pending connection for the polling scenarios. -/
def pcEx : PendingConnection := ⟨"conn-1", "github"⟩

/-- Modal state after a successful initiate whose window.open succeeded
(the popup is open). -/
def openedModal : ModalState := initModal (some ⟨false⟩) pcEx

/-- Modal state after a successful initiate whose window.open returned
null (popup blocked). -/
def blockedModal : ModalState := initModal none pcEx

/-! ## Helper lemmas -/

@[simp]
lemma expandedState_fresh (path : List String) (level : Nat) :
    expandedState freshStore path level = (level == 0) := rfl

lemma renderProp_expanded (σ : StateStore) (path : List String) (name : String)
    (p : SchemaProperty) (isReq : Bool) (level : Nat) :
    (renderProp σ path name p isReq level).expanded =
      expandedState σ (path ++ [name]) level := by
  cases p with
  | mk ty d props items req => simp [renderProp]

lemma renderProp_level (σ : StateStore) (path : List String) (name : String)
    (p : SchemaProperty) (isReq : Bool) (level : Nat) :
    (renderProp σ path name p isReq level).level = level := by
  cases p with
  | mk ty d props items req => simp [renderProp]

lemma renderProp_hasToggle (σ : StateStore) (path : List String) (name : String)
    (p : SchemaProperty) (isReq : Bool) (level : Nat) :
    (renderProp σ path name p isReq level).hasToggle = hasNestedProperties p := by
  cases p with
  | mk ty d props items req => simp [renderProp]

lemma renderProps_eq_nil_iff (σ : StateStore) (path : List String)
    (required : List String) (level : Nat) :
    ∀ props : List (String × SchemaProperty),
      renderProps σ path props required level = [] ↔ props = [] := by
  intro props
  cases props with
  | nil => simp [renderProps]
  | cons hd tl => cases hd; simp [renderProps]

lemma renderProps_level (σ : StateStore) (path : List String)
    (required : List String) (level : Nat) :
    ∀ props : List (String × SchemaProperty),
      ∀ n ∈ renderProps σ path props required level, n.level = level := by
  intro props
  induction props with
  | nil => simp [renderProps]
  | cons hd tl ih =>
      intro n hn
      cases hd with
      | mk nm q =>
        rw [renderProps] at hn
        rcases List.mem_cons.mp hn with h | h
        · rw [h, renderProp_level]
        · exact ih n h

lemma renderProp_children_ne_nil (σ : StateStore) (path : List String) (name : String)
    (p : SchemaProperty) (isReq : Bool) (level : Nat) :
    (renderProp σ path name p isReq level).children ≠ [] ↔
      (expandedState σ (path ++ [name]) level &&
        (objectChildrenCond p || arrayChildrenCond p)) = true := by
  cases p with
  | mk ty d props items req =>
    cases props with
    | none =>
      cases items with
      | none =>
        simp [renderProp, objectChildrenCond, arrayChildrenCond]
      | some it =>
        cases it with
        | mk ity idd iprops iit ireq =>
          cases iprops with
          | none => simp [renderProp, objectChildrenCond, arrayChildrenCond]
          | some il =>
            simp only [renderProp, RenderNode.children, objectChildrenCond,
              arrayChildrenCond]
            cases hexp : expandedState σ (path ++ [name]) level <;>
              by_cases hty : ty = some (TypeField.single "array") <;>
                cases il with
                | nil => simp_all [renderProps_eq_nil_iff]
                | cons ihd itl => simp_all [renderProps_eq_nil_iff]
    | some l =>
      cases items with
      | none =>
        simp only [renderProp, RenderNode.children, objectChildrenCond,
          arrayChildrenCond]
        cases hexp : expandedState σ (path ++ [name]) level <;>
          by_cases hty : ty = some (TypeField.single "object") <;>
            cases l with
            | nil => simp_all [renderProps_eq_nil_iff]
            | cons lhd ltl => simp_all [renderProps_eq_nil_iff]
      | some it =>
        cases it with
        | mk ity idd iprops iit ireq =>
          cases iprops with
          | none =>
            simp only [renderProp, RenderNode.children, objectChildrenCond,
              arrayChildrenCond]
            cases hexp : expandedState σ (path ++ [name]) level <;>
              by_cases hty : ty = some (TypeField.single "object") <;>
                cases l with
                | nil => simp_all [renderProps_eq_nil_iff]
                | cons lhd ltl => simp_all [renderProps_eq_nil_iff]
          | some il =>
            simp only [renderProp, RenderNode.children, objectChildrenCond,
              arrayChildrenCond]
            cases hexp : expandedState σ (path ++ [name]) level <;>
              by_cases hty : ty = some (TypeField.single "object") <;>
                by_cases hty2 : ty = some (TypeField.single "array") <;>
                  cases l with
                  | nil =>
                    cases il with
                    | nil => simp_all [renderProps_eq_nil_iff]
                    | cons ihd itl => simp_all [renderProps_eq_nil_iff]
                  | cons lhd ltl =>
                    cases il with
                    | nil => simp_all [renderProps_eq_nil_iff]
                    | cons ihd itl => simp_all [renderProps_eq_nil_iff]

lemma allNodesList_append (a b : List RenderNode) :
    allNodesList (a ++ b) = allNodesList a ++ allNodesList b := by
  induction a with
  | nil => simp [allNodesList]
  | cons n rest ih => simp [allNodesList, ih]

lemma render_fresh_expand_aux :
    ∀ k : Nat,
      (∀ p : SchemaProperty, sizeOf p ≤ k → ∀ path name isReq level,
        ∀ n ∈ allNodes (renderProp freshStore path name p isReq level),
          n.expanded = (n.level == 0)) ∧
      (∀ props : List (String × SchemaProperty), sizeOf props ≤ k →
        ∀ path required level,
        ∀ n ∈ allNodesList (renderProps freshStore path props required level),
          n.expanded = (n.level == 0)) := by
  intro k
  induction k with
  | zero =>
    constructor
    · intro p hp
      exfalso
      cases p with
      | mk a b c dd e => simp only [SchemaProperty.mk.sizeOf_spec] at hp; omega
    · intro props hp
      exfalso
      cases props with
      | nil => simp at hp
      | cons a b => simp only [List.cons.sizeOf_spec] at hp; omega
  | succ k ih =>
    obtain ⟨ihp, ihl⟩ := ih
    constructor
    · intro p hp path name isReq level n hn
      cases p with
      | mk ty d props items req =>
        cases props with
        | none =>
          cases items with
          | none =>
            simp only [renderProp, allNodes] at hn
            rcases List.mem_cons.mp hn with rfl | hn
            · simp
            · simp [allNodesList] at hn
          | some it =>
            cases it with
            | mk ity idd iprops iit ireq =>
              cases iprops with
              | none =>
                simp only [renderProp, allNodes] at hn
                rcases List.mem_cons.mp hn with rfl | hn
                · simp
                · simp [allNodesList] at hn
              | some il =>
                have hb : sizeOf il ≤ k := by
                  simp only [SchemaProperty.mk.sizeOf_spec,
                    Option.some.sizeOf_spec] at hp
                  omega
                simp only [renderProp, allNodes] at hn
                rcases List.mem_cons.mp hn with rfl | hn
                · simp
                · rw [allNodesList_append] at hn
                  rcases List.mem_append.mp hn with hn | hn
                  · simp [allNodesList] at hn
                  · split at hn
                    · exact ihl il hb _ _ _ n hn
                    · simp [allNodesList] at hn
        | some l =>
          have hbl : sizeOf l ≤ k := by
            simp only [SchemaProperty.mk.sizeOf_spec,
              Option.some.sizeOf_spec] at hp
            omega
          cases items with
          | none =>
            simp only [renderProp, allNodes] at hn
            rcases List.mem_cons.mp hn with rfl | hn
            · simp
            · rw [allNodesList_append] at hn
              rcases List.mem_append.mp hn with hn | hn
              · split at hn
                · exact ihl l hbl _ _ _ n hn
                · simp [allNodesList] at hn
              · simp [allNodesList] at hn
          | some it =>
            cases it with
            | mk ity idd iprops iit ireq =>
              cases iprops with
              | none =>
                simp only [renderProp, allNodes] at hn
                rcases List.mem_cons.mp hn with rfl | hn
                · simp
                · rw [allNodesList_append] at hn
                  rcases List.mem_append.mp hn with hn | hn
                  · split at hn
                    · exact ihl l hbl _ _ _ n hn
                    · simp [allNodesList] at hn
                  · simp [allNodesList] at hn
              | some il =>
                have hbi : sizeOf il ≤ k := by
                  simp only [SchemaProperty.mk.sizeOf_spec,
                    Option.some.sizeOf_spec] at hp
                  omega
                simp only [renderProp, allNodes] at hn
                rcases List.mem_cons.mp hn with rfl | hn
                · simp
                · rw [allNodesList_append] at hn
                  rcases List.mem_append.mp hn with hn | hn
                  · split at hn
                    · exact ihl l hbl _ _ _ n hn
                    · simp [allNodesList] at hn
                  · split at hn
                    · exact ihl il hbi _ _ _ n hn
                    · simp [allNodesList] at hn
    · intro props hp path required level n hn
      cases props with
      | nil =>
        simp only [renderProps, allNodesList] at hn
        exact absurd hn (List.not_mem_nil n)
      | cons hd tl =>
        cases hd with
        | mk nm q =>
          simp only [renderProps, allNodesList] at hn
          rcases List.mem_append.mp hn with hn | hn
          · have hb : sizeOf q ≤ k := by
              simp only [List.cons.sizeOf_spec, Prod.mk.sizeOf_spec] at hp
              omega
            exact ihp q hb _ _ _ _ n hn
          · have hb : sizeOf tl ≤ k := by
              simp only [List.cons.sizeOf_spec, Prod.mk.sizeOf_spec] at hp
              omega
            exact ihl tl hb _ _ _ n hn

lemma renderProp_children_level (σ : StateStore) (path : List String) (name : String)
    (p : SchemaProperty) (isReq : Bool) (level : Nat) :
    ∀ n ∈ (renderProp σ path name p isReq level).children, n.level = level + 1 := by
  intro n hn
  cases p with
  | mk ty d props items req =>
    cases props with
    | none =>
      cases items with
      | none => simp [renderProp] at hn
      | some it =>
        cases it with
        | mk ity idd iprops iit ireq =>
          cases iprops with
          | none => simp [renderProp] at hn
          | some il =>
            simp only [renderProp, RenderNode.children] at hn
            rcases List.mem_append.mp hn with hn | hn
            · simp at hn
            · split at hn
              · exact renderProps_level _ _ _ _ il n hn
              · simp at hn
    | some l =>
      cases items with
      | none =>
        simp only [renderProp, RenderNode.children] at hn
        rcases List.mem_append.mp hn with hn | hn
        · split at hn
          · exact renderProps_level _ _ _ _ l n hn
          · simp at hn
        · simp at hn
      | some it =>
        cases it with
        | mk ity idd iprops iit ireq =>
          cases iprops with
          | none =>
            simp only [renderProp, RenderNode.children] at hn
            rcases List.mem_append.mp hn with hn | hn
            · split at hn
              · exact renderProps_level _ _ _ _ l n hn
              · simp at hn
            · simp at hn
          | some il =>
            simp only [renderProp, RenderNode.children] at hn
            rcases List.mem_append.mp hn with hn | hn
            · split at hn
              · exact renderProps_level _ _ _ _ l n hn
              · simp at hn
            · split at hn
              · exact renderProps_level _ _ _ _ il n hn
              · simp at hn

lemma step_livenessTick_popup_none (s : ModalState) (h : s.popup = none) :
    step s Event.livenessTick = s := by
  simp [step, popupClosed, h]

lemma run_livenessOnly_popup_none :
    ∀ (es : List Event) (s : ModalState), s.popup = none →
      (∀ e ∈ es, e = Event.livenessTick) → run s es = s := by
  intro es
  induction es with
  | nil => intro s _ _; rfl
  | cons e tl ih =>
      intro s h hall
      have he := hall e (List.mem_cons_self e tl)
      subst he
      rw [run, step_livenessTick_popup_none s h]
      exact ih s h (fun e' he' => hall e' (List.mem_cons_of_mem _ he'))

/-! ## Claim theorems: polling state machine -/

/-- Claim C1 counterexample: with window.open returning null (popup
blocked), a poll tick that returns ACTIVE notifies the caller and stops
the 2-second poll timer, but the 1-second popup-liveness timer is NOT
stopped — and stays armed after five further liveness ticks — refuting
"both timers are stopped ... regardless of whether the popup window was
successfully opened". -/
theorem claimC1_cex_active_leaves_liveness_timer :
    (step blockedModal (.pollTick (.ok "ACTIVE"))).successNotified = true ∧
    (step blockedModal (.pollTick (.ok "ACTIVE"))).pollIntervalActive = false ∧
    (step blockedModal (.pollTick (.ok "ACTIVE"))).checkPopupClosedActive = true ∧
    (run (step blockedModal (.pollTick (.ok "ACTIVE")))
        [.livenessTick, .livenessTick, .livenessTick, .livenessTick,
         .livenessTick]).checkPopupClosedActive = true := by
  decide

/-- Claim C1 (amended): when the status check returns ACTIVE during
polling, the poll timer is stopped, the popup closed if it was opened,
the pending connection cleared and the caller notified; the liveness
timer is not stopped by the ACTIVE branch itself — if the popup was
opened it stops itself at its next tick, and if the popup failed to
open it is never stopped however many liveness ticks pass. -/
theorem claimC1_active_side_effects (s : ModalState)
    (h : s.pollIntervalActive = true) :
    step s (.pollTick (.ok "ACTIVE")) =
      { s with pollIntervalActive := false, popup := closePopup s.popup,
               pendingConnection := none, successNotified := true } ∧
    (∀ w, s.popup = some w →
      (step (step s (.pollTick (.ok "ACTIVE"))) .livenessTick).checkPopupClosedActive
          = false ∧
      (step (step s (.pollTick (.ok "ACTIVE"))) .livenessTick).pollIntervalActive
          = false) ∧
    (s.popup = none → ∀ es : List Event, (∀ e ∈ es, e = Event.livenessTick) →
      (run (step s (.pollTick (.ok "ACTIVE"))) es).checkPopupClosedActive =
        s.checkPopupClosedActive) := by
  refine ⟨by simp [step, h], ?_, ?_⟩
  · intro w hw
    cases hc : s.checkPopupClosedActive <;>
      simp [step, h, hw, hc, closePopup, popupClosed]
  · intro hnone es hall
    have h1 : (step s (.pollTick (.ok "ACTIVE"))).popup = none := by
      simp [step, h, hnone, closePopup]
    rw [run_livenessOnly_popup_none es _ h1 hall]
    simp [step, h]

/-- Claim C1 witness: a concrete session whose popup opened; after
ACTIVE the pending connection is cleared and the liveness timer is
gone one tick later. -/
theorem claimC1_active_side_effects_witness :
    (step openedModal (.pollTick (.ok "ACTIVE"))).pendingConnection = none ∧
    (step (step openedModal (.pollTick (.ok "ACTIVE")))
        .livenessTick).checkPopupClosedActive = false := by
  have h := claimC1_active_side_effects openedModal rfl
  exact ⟨by rw [h.1], (h.2.1 ⟨false⟩ rfl).1⟩

/-- Claim C2: if the user closes the popup while both timers are armed
and a connection is pending (AWAITING_AUTH, no terminal status yet),
the very next liveness tick stops both timers and clears the pending
connection, leaving alerts and the success notification untouched
(silent abort). -/
theorem claimC2_user_close_cancels (s : ModalState) (pc : PendingConnection)
    (w : Popup) (_hpoll : s.pollIntervalActive = true)
    (hlive : s.checkPopupClosedActive = true)
    (hpopup : s.popup = some w) (_hpend : s.pendingConnection = some pc) :
    step (step s .userClosesPopup) .livenessTick =
      { s with pollIntervalActive := false, checkPopupClosedActive := false,
               popup := some ⟨true⟩, pendingConnection := none } := by
  cases s
  simp_all [step, closePopup, popupClosed]

/-- Claim C2 witness at a concrete freshly-initiated modal. -/
theorem claimC2_user_close_cancels_witness :
    step (step openedModal .userClosesPopup) .livenessTick =
      { openedModal with pollIntervalActive := false,
                         checkPopupClosedActive := false,
                         popup := some ⟨true⟩, pendingConnection := none } :=
  claimC2_user_close_cancels openedModal pcEx ⟨false⟩ rfl rfl rfl rfl

/-- Claim C4: a poll tick whose status check throws only logs the
error: the state is unchanged except the error counter, so both timers
stay armed, nothing is surfaced, and a later tick can still complete
the flow (a subsequent ACTIVE response notifies the caller). -/
theorem claimC4_poll_error_keeps_polling (s : ModalState)
    (h : s.pollIntervalActive = true) :
    step s (.pollTick .err) = { s with loggedErrors := s.loggedErrors + 1 } ∧
    (step (step s (.pollTick .err)) (.pollTick (.ok "ACTIVE"))).successNotified
      = true := by
  constructor
  · simp [step, h]
  · simp [step, h]

/-- Claim C4 witness at a concrete freshly-initiated modal. -/
theorem claimC4_poll_error_keeps_polling_witness :
    step openedModal (.pollTick .err) =
      { openedModal with loggedErrors := 1 } ∧
    (step (step openedModal (.pollTick .err))
        (.pollTick (.ok "ACTIVE"))).successNotified = true :=
  claimC4_poll_error_keeps_polling openedModal rfl

/-- Claim C5 counterexample: with window.open returning null, a FAILED
status stops the poll timer, clears the pending connection and raises
the alert, but the 1-second liveness timer is never cancelled — it is
still armed five liveness ticks later — refuting "both timers are
cancelled" for such sessions. -/
theorem claimC5_cex_failed_leaves_liveness_timer :
    (step blockedModal (.pollTick (.ok "FAILED"))).alerts =
      ["Connection failed. Please try again."] ∧
    (step blockedModal (.pollTick (.ok "FAILED"))).pollIntervalActive = false ∧
    (step blockedModal (.pollTick (.ok "FAILED"))).checkPopupClosedActive = true ∧
    (run (step blockedModal (.pollTick (.ok "FAILED")))
        [.livenessTick, .livenessTick, .livenessTick, .livenessTick,
         .livenessTick]).checkPopupClosedActive = true := by
  decide

/-- Claim C5 (amended): when the status check returns FAILED during
polling, the poll timer is stopped, the popup closed if it was opened,
the pending connection cleared, no success notification fires, and the
blocking alert is surfaced; the liveness timer is stopped within one
further tick provided the popup was opened, and never when the popup
failed to open. -/
theorem claimC5_failed_side_effects (s : ModalState)
    (h : s.pollIntervalActive = true) :
    step s (.pollTick (.ok "FAILED")) =
      { s with pollIntervalActive := false, popup := closePopup s.popup,
               pendingConnection := none,
               alerts := s.alerts ++ ["Connection failed. Please try again."] } ∧
    (∀ w, s.popup = some w →
      (step (step s (.pollTick (.ok "FAILED"))) .livenessTick).checkPopupClosedActive
          = false ∧
      (step (step s (.pollTick (.ok "FAILED"))) .livenessTick).pollIntervalActive
          = false) ∧
    (s.popup = none → ∀ es : List Event, (∀ e ∈ es, e = Event.livenessTick) →
      (run (step s (.pollTick (.ok "FAILED"))) es).checkPopupClosedActive =
        s.checkPopupClosedActive) := by
  refine ⟨by simp [step, h], ?_, ?_⟩
  · intro w hw
    cases hc : s.checkPopupClosedActive <;>
      simp [step, h, hw, hc, closePopup, popupClosed]
  · intro hnone es hall
    have h1 : (step s (.pollTick (.ok "FAILED"))).popup = none := by
      simp [step, h, hnone, closePopup]
    rw [run_livenessOnly_popup_none es _ h1 hall]
    simp [step, h]

/-- Claim C5 witness: a concrete session whose popup opened; after
FAILED the alert is recorded and the liveness timer is gone one tick
later. -/
theorem claimC5_failed_side_effects_witness :
    (step openedModal (.pollTick (.ok "FAILED"))).alerts =
      ["Connection failed. Please try again."] ∧
    (step (step openedModal (.pollTick (.ok "FAILED")))
        .livenessTick).checkPopupClosedActive = false := by
  have h := claimC5_failed_side_effects openedModal rfl
  exact ⟨by rw [h.1]; rfl, (h.2.1 ⟨false⟩ rfl).1⟩

/-- Claim C6 counterexample: while the initiate request is loading but
no pending connection exists yet, the toolkit buttons are disabled but
the modal close button and the search input are NOT — refuting "every
UI trigger ... is disabled" during the loading phase. -/
theorem claimC6_cex_close_search_enabled_while_loading :
    toolkitButtonDisabled false true = true ∧
    closeButtonDisabled false true = false ∧
    searchInputDisabled false true = false := by
  decide

/-- Claim C6 (amended): the toolkit buttons — the only triggers that
start a connection attempt — are enabled only when no pending
connection exists and no initiate request is loading, so a second
initiate cannot start while one is in flight; the close button and
search input are disabled only while a pending connection exists. -/
theorem claimC6_single_session_triggers (pending isLoading : Bool) :
    (toolkitButtonDisabled pending isLoading = false →
      pending = false ∧ isLoading = false) ∧
    (pending = true →
      closeButtonDisabled pending isLoading = true ∧
      searchInputDisabled pending isLoading = true) := by
  cases pending <;> cases isLoading <;>
    simp [toolkitButtonDisabled, closeButtonDisabled, searchInputDisabled]

/-- Claim C6 witness at concrete flag values. -/
theorem claimC6_single_session_triggers_witness :
    (false = false ∧ false = false) ∧
    (closeButtonDisabled true false = true ∧
      searchInputDisabled true false = true) :=
  ⟨(claimC6_single_session_triggers false false).1 rfl,
   (claimC6_single_session_triggers true false).2 rfl⟩

/-! ## Claim theorems: schema renderer -/

/-- Claim C10: a null/undefined schema, or one without a properties
field, renders as the "No parameters defined" placeholder and produces
no property items, for every store and level. -/
theorem claimC10_missing_schema_placeholder (σ : StateStore) (level : Nat) :
    SchemaDisplay σ none level = RenderResult.noParams ∧
    renderedOf (SchemaDisplay σ none level) = [] ∧
    ∀ s : TopSchema, s.properties = none →
      SchemaDisplay σ (some s) level = RenderResult.noParams ∧
      renderedOf (SchemaDisplay σ (some s) level) = [] := by
  refine ⟨rfl, rfl, ?_⟩
  intro s hs
  cases s with
  | mk t pr r =>
    cases pr with
    | none => exact ⟨rfl, rfl⟩
    | some l => simp at hs

/-- Claim C10 witness: a schema object with a type but no properties
field renders as the placeholder. -/
theorem claimC10_missing_schema_placeholder_witness :
    SchemaDisplay freshStore (some ⟨some "object", none, none⟩) 0 =
      RenderResult.noParams :=
  ((claimC10_missing_schema_placeholder freshStore 0).2.2
    ⟨some "object", none, none⟩ rfl).1

/-- Claim C8: the displayed type string joins a list type with
" | "; renders an array with items of single type t (nonempty, the
JS-truthy case) as array<t>; and otherwise shows a present single
type itself (when the type is "array" this is conditional on items
being absent). -/
theorem claimC8_display_type_rules (p : SchemaProperty) :
    (∀ ts, p.type = some (.multi ts) →
      displayType p = String.intercalate " | " ts) ∧
    (∀ it t, p.type = some (.single "array") → p.items = some it →
      it.type = some (.single t) → t ≠ "" →
      displayType p = "array<" ++ t ++ ">") ∧
    (∀ t, p.type = some (.single t) → t ≠ "" → (t = "array" → p.items = none) →
      displayType p = t) := by
  cases p with
  | mk ty d props items req =>
    refine ⟨?_, ?_, ?_⟩
    · intro ts h
      simp only [SchemaProperty.type] at h
      subst h
      simp [displayType]
    · intro it t h hi hit ht
      simp only [SchemaProperty.type] at h
      simp only [SchemaProperty.items] at hi
      subst h
      subst hi
      cases it with
      | mk ity idd iprops iit ireq =>
        simp only [SchemaProperty.type] at hit
        subst hit
        simp [displayType, itemsTypeStr, ht]
    · intro t h ht harr
      simp only [SchemaProperty.type] at h
      subst h
      by_cases hta : t = "array"
      · subst hta
        have : items = none := by
          have := harr rfl
          simpa using this
        subst this
        simp [displayType]
      · simp [displayType, hta, ht]

/-- Claim C8 witness: the three display rules at concrete properties,
including the spec's array-of-string example rendering as
array<string>. -/
theorem claimC8_display_type_rules_witness :
    displayType arrayOfString = "array<string>" ∧
    displayType (.mk (some (.multi ["string", "number"])) none none none none) =
      "string | number" ∧
    displayType strProp = "string" :=
  ⟨(claimC8_display_type_rules arrayOfString).2.1 strProp "string" rfl rfl rfl
      (by decide),
   (claimC8_display_type_rules _).1 ["string", "number"] rfl,
   (claimC8_display_type_rules strProp).2.2 "string" rfl (by decide)
      (fun h => absurd h (by decide))⟩

/-- Claim C7: a property carries the expand/collapse toggle exactly
when hasNestedProperties holds, and the toggle reveals children
exactly when the property is expanded and a nested block guard holds;
the combination — toggle present and revealing a nested renderer —
coincides with the spec's rule ((object and has properties) or (array
and items has properties), "has properties" meaning a nonempty map),
the revealed children sit at level + 1, and the array-of-string
example has no toggle. -/
theorem claimC7_expandable_iff :
    (∀ p : SchemaProperty,
      (hasNestedProperties p && (objectChildrenCond p || arrayChildrenCond p)) =
        specExpandable p) ∧
    (∀ (σ : StateStore) (path : List String) (name : String)
        (p : SchemaProperty) (isReq : Bool) (level : Nat),
      (renderProp σ path name p isReq level).hasToggle = hasNestedProperties p) ∧
    (∀ (σ : StateStore) (path : List String) (name : String)
        (p : SchemaProperty) (isReq : Bool) (level : Nat),
      (renderProp σ path name p isReq level).children ≠ [] ↔
        (expandedState σ (path ++ [name]) level &&
          (objectChildrenCond p || arrayChildrenCond p)) = true) ∧
    (∀ (σ : StateStore) (path : List String) (name : String)
        (p : SchemaProperty) (isReq : Bool) (level : Nat),
      ∀ n ∈ (renderProp σ path name p isReq level).children,
        n.level = level + 1) ∧
    hasNestedProperties arrayOfString = false := by
  refine ⟨?_, renderProp_hasToggle, renderProp_children_ne_nil,
    renderProp_children_level, by decide⟩
  intro p
  cases p with
  | mk ty d props items req =>
    cases props with
    | none =>
      cases items with
      | none =>
        simp [hasNestedProperties, objectChildrenCond, arrayChildrenCond,
          specExpandable]
      | some it =>
        cases it with
        | mk ity idd iprops iit ireq =>
          cases iprops with
          | none =>
            simp [hasNestedProperties, objectChildrenCond, arrayChildrenCond,
              specExpandable]
          | some il =>
            by_cases h2 : ty = some (TypeField.single "array") <;>
              simp_all [hasNestedProperties, objectChildrenCond,
                arrayChildrenCond, specExpandable]
    | some l =>
      cases items with
      | none =>
        by_cases h1 : ty = some (TypeField.single "object") <;>
          simp_all [hasNestedProperties, objectChildrenCond, arrayChildrenCond,
            specExpandable]
      | some it =>
        cases it with
        | mk ity idd iprops iit ireq =>
          cases iprops with
          | none =>
            by_cases h1 : ty = some (TypeField.single "object") <;>
              simp_all [hasNestedProperties, objectChildrenCond,
                arrayChildrenCond, specExpandable]
          | some il =>
            by_cases h1 : ty = some (TypeField.single "object") <;>
              by_cases h2 : ty = some (TypeField.single "array") <;>
                simp_all [hasNestedProperties, objectChildrenCond,
                  arrayChildrenCond, specExpandable]

/-- Claim C7 witness: the b property of the worked example is expanded
at level 0 with a satisfied object guard, so its rendered children are
nonempty. -/
theorem claimC7_expandable_iff_witness :
    (renderProp freshStore [] "b" bProp false 0).children ≠ [] := by
  apply (claimC7_expandable_iff.2.2.1 freshStore [] "b" bProp false 0).mpr
  rfl

/-- Claim C3 counterexample: in the worked example rendered at level 0,
property b is itself a level-0 PropertyItem, so it mounts EXPANDED
(useState(level === 0)), and c is already visible in the initial
render with no toggling — refuting "b starts collapsed-by-default" and
"c becomes visible only after toggling b". -/
theorem claimC3_cex_b_starts_expanded :
    (renderProp freshStore [] "b" bProp false 0).expanded = true ∧
    visiblePaths [] (renderedOf (SchemaDisplay freshStore (some exSchema) 0)) =
      [["a"], ["b"], ["b", "c"]] := by
  constructor
  · rw [renderProp_expanded]
    rfl
  · simp [SchemaDisplay, exSchema, renderProps, renderProp, strProp, bProp,
      numProp, visiblePaths, renderedOf, reqListOf, hasNestedProperties,
      displayType, itemsTypeStr]

/-- Claim C3 (amended): a property mounts expanded iff its level is 0;
in the worked example rendered at level 0, a and b (both level 0)
start expanded, so c — rendered at level 1 under the expanded b — is
visible in the initial render without toggling, and toggling b
collapses it and hides c. -/
theorem claimC3_level_zero_autoexpand :
    (∀ (path : List String) (name : String) (p : SchemaProperty)
        (isReq : Bool) (level : Nat),
      (renderProp freshStore path name p isReq level).expanded = (level == 0)) ∧
    visiblePaths [] (renderedOf (SchemaDisplay freshStore (some exSchema) 0)) =
      [["a"], ["b"], ["b", "c"]] ∧
    visiblePaths [] (renderedOf (SchemaDisplay toggledB (some exSchema) 0)) =
      [["a"], ["b"]] := by
  refine ⟨?_, ?_, ?_⟩
  · intro path name p isReq level
    rw [renderProp_expanded]
    rfl
  · simp [SchemaDisplay, exSchema, renderProps, renderProp, strProp, bProp,
      numProp, visiblePaths, renderedOf, reqListOf, hasNestedProperties,
      displayType, itemsTypeStr]
  · simp [SchemaDisplay, exSchema, renderProps, renderProp, strProp, bProp,
      numProp, visiblePaths, renderedOf, reqListOf, hasNestedProperties,
      displayType, itemsTypeStr, toggledB, toggleAt, expandedState]

/-- Claim C9: rendering with the fresh store (no user interaction) is
deterministic in the expand/collapse flags: every rendered PropertyItem
is expanded exactly when its level is 0, for any schema and root level;
hence two such renders — even of different schemas — agree on the
expansion flag of any two nodes at equal levels.  The input schema is
passed by value and never modified (the nested renders construct fresh
child schema objects). -/
theorem claimC9_fresh_render_deterministic :
    (∀ (schema : Option TopSchema) (level : Nat),
      ∀ n ∈ allNodesList (renderedOf (SchemaDisplay freshStore schema level)),
        n.expanded = (n.level == 0)) ∧
    (∀ (s1 s2 : Option TopSchema) (l1 l2 : Nat) (n1 n2 : RenderNode),
      n1 ∈ allNodesList (renderedOf (SchemaDisplay freshStore s1 l1)) →
      n2 ∈ allNodesList (renderedOf (SchemaDisplay freshStore s2 l2)) →
      n1.level = n2.level → n1.expanded = n2.expanded) := by
  have hmain : ∀ (schema : Option TopSchema) (level : Nat),
      ∀ n ∈ allNodesList (renderedOf (SchemaDisplay freshStore schema level)),
        n.expanded = (n.level == 0) := by
    intro schema level n hn
    cases schema with
    | none => simp [SchemaDisplay, renderedOf, allNodesList] at hn
    | some s =>
      cases s with
      | mk t pr r =>
        cases pr with
        | none => simp [SchemaDisplay, renderedOf, allNodesList] at hn
        | some props =>
          simp only [SchemaDisplay, renderedOf] at hn
          exact (render_fresh_expand_aux (sizeOf props)).2 props le_rfl _ _ _ n hn
  refine ⟨hmain, ?_⟩
  intro s1 s2 l1 l2 n1 n2 h1 h2 hlv
  rw [hmain s1 l1 n1 h1, hmain s2 l2 n2 h2, hlv]

/-- Claim C9 witness: the a node of the worked example, rendered at
level 0, is expanded. -/
theorem claimC9_fresh_render_deterministic_witness :
    (renderProp freshStore [] "a" strProp false 0).expanded =
      ((renderProp freshStore [] "a" strProp false 0).level == 0) := by
  apply claimC9_fresh_render_deterministic.1 (some exSchema) 0
  simp [SchemaDisplay, exSchema, renderProps, renderProp, strProp, bProp,
    numProp, renderedOf, allNodesList, allNodes, reqListOf,
    hasNestedProperties, displayType, itemsTypeStr]

end AgentDojo
